import Mathlib

/-!
Verification of the supervision core of `tray_gui.py` (CapsWriter-Offline tray GUI).

The Python program supervises two external worker processes: the primary
`start_server.exe` (spawned by `start_core_server`) and the secondary
`start_client.exe` (spawned by `MainWindow.start_client` when a sentinel line
appears in the server log).  We embed the relevant functions shallowly:

* OS interaction (filesystem queries, `subprocess.Popen`, `psutil`
  enumeration, process termination outcomes) is abstracted into explicit
  environment records whose fields are oracles for what the OS would answer;
* every side effect (logging calls, Qt emitter signals, widget appends,
  process control) becomes an element of the `Ev` event type, and each
  embedded function returns the list of events it performs, in order;
* Python exceptions are explicit: a computation that can let an exception
  escape returns it in an `Option`/`Except` component instead of a result.
-/

set_option autoImplicit false
set_option linter.unnecessarySeqFocus false

namespace TrayGui

/-! ### Strings and paths from the source -/

/-- `BASE_DIR` of the program; its concrete value is irrelevant to the claims,
which quantify over the filesystem oracle. -/
def BASE_DIR : String := "C:\\CapsWriter"

/-- `os.path.join` as used in the source (only ever joins `BASE_DIR` with a
bare file name). -/
def joinPath (a b : String) : String := a ++ "\\" ++ b

/-- `os.path.join(BASE_DIR, "start_server.exe")`. -/
def server_exe_path : String := joinPath BASE_DIR "start_server.exe"

/-- `os.path.join(BASE_DIR, "start_client.exe")`. -/
def client_exe_path : String := joinPath BASE_DIR "start_client.exe"

/-- The sentinel substring tested in `MainWindow.append_server_log`
(line 283 of `tray_gui.py`). -/
def sentinel : String := "------------------------ 开始服务 ----------"

/-- Python's `needle in hay` substring test. -/
def strContains (hay needle : String) : Bool :=
  hay.toList.tails.any (fun t => needle.toList.isPrefixOf t)

/-- The character class stripped by Python's `str.strip()` /
`str.rstrip()` with no argument (ASCII whitespace; the unicode additions are
irrelevant to the log lines at hand). -/
def isPySpace (c : Char) : Bool :=
  c = ' ' || c = '\t' || c = '\n' || c = '\r' || c = '\x0b' || c = '\x0c'

/-- Python `line.strip()`: removes leading AND trailing whitespace. -/
def pyStrip (s : String) : String :=
  ⟨((s.toList.dropWhile isPySpace).reverse.dropWhile isPySpace).reverse⟩

/-- Modelled from the spec's words, for refinement comparison only (the spec
says lines are published "with trailing whitespace trimmed", leaving leading
whitespace unchanged): remove trailing whitespace only. -/
def specRStrip (s : String) : String :=
  ⟨(s.toList.reverse.dropWhile isPySpace).reverse⟩

/-! ### Events -/

/-- Which worker process an event concerns. -/
inductive Which
  | server
  | client
deriving DecidableEq

/-- Observable side effects of the embedded functions, in program order. -/
inductive Ev
  | logInfo (m : String)
  | logWarning (m : String)
  | logError (m : String)
  | emitServer (m : String)
  | emitClient (m : String)
  | appendServerLog (m : String)
  | appendClientLog (m : String)
  | spawnServer
  | spawnClient
  | startReader (tag : String)
  | waitServerExit
  | stopMonitor
  | terminateProc (w : Which)
  | waitProc (w : Which) (secs : Nat)
  | killProc (w : Which)
  | sweepTerminate (pid : Nat)
  | closeStream
  | acceptEvent
  | ignoreEvent
  | hideWindow
  | setIcon
deriving DecidableEq

/-! ### Stream readers (`read_output` in `start_core_server`,
`read_client_output` in `MainWindow.start_client`)

A stream is the sequence of results `stream.readline` would yield:
either a text line or a raised read error.  `iter(stream.readline, '')`
stops at end of stream (modelled by the end of the list) and also on an
empty-string result. -/

/-- One `stream.readline` result. -/
inductive ReadResult
  | line (s : String)
  | readErr (m : String)
deriving DecidableEq

/-- Outcome of running a reader thread body to completion. -/
structure ReaderRun where
  events : List Ev
  closed : Bool
  raised : Option String
deriving DecidableEq

/-- `read_output(stream, emitter)` from `start_core_server`:
`for line in iter(stream.readline, ''): logging.info(f"[Core Server] {line.strip()}"); emitter.emit_log(line.strip())`
then `stream.close()`.  There is no exception handler: a read error escapes
the loop, skipping the `close`. -/
def read_output : List ReadResult → ReaderRun
  | [] => ⟨[Ev.closeStream], true, none⟩
  | ReadResult.line s :: rest =>
    if s = "" then ⟨[Ev.closeStream], true, none⟩
    else
      let r := read_output rest
      { r with events :=
          Ev.logInfo ("[Core Server] " ++ pyStrip s) ::
          Ev.emitServer (pyStrip s) :: r.events }
  | ReadResult.readErr m :: _ => ⟨[], false, some m⟩

/-- `read_client_output(stream, emitter)` from `MainWindow.start_client`:
identical loop with the `[Client]` tag, emitting on the client emitter. -/
def read_client_output : List ReadResult → ReaderRun
  | [] => ⟨[Ev.closeStream], true, none⟩
  | ReadResult.line s :: rest =>
    if s = "" then ⟨[Ev.closeStream], true, none⟩
    else
      let r := read_client_output rest
      { r with events :=
          Ev.logInfo ("[Client] " ++ pyStrip s) ::
          Ev.emitClient (pyStrip s) :: r.events }
  | ReadResult.readErr m :: _ => ⟨[], false, some m⟩

/-- The lines a subscriber on the server emitter receives, in order. -/
def serverEmits : List Ev → List String
  | [] => []
  | Ev.emitServer s :: r => s :: serverEmits r
  | _ :: r => serverEmits r

/-- The lines a subscriber on the client emitter receives, in order. -/
def clientEmits : List Ev → List String
  | [] => []
  | Ev.emitClient s :: r => s :: clientEmits r
  | _ :: r => clientEmits r

/-! ### `MainWindow.start_client` (spawning the secondary worker)

`start_client` builds the environment dict and immediately calls
`subprocess.Popen([os.path.join(BASE_DIR, "start_client.exe")], ...)` with no
existence check on the executable and no `try` around the call: if the
executable is missing, `Popen` raises (`FileNotFoundError`) and the exception
escapes `start_client`.  On success it starts the two reader threads, emits
the startup message on the client emitter, ensures the `LogHandler` is
attached, and sets the window icon inside its own `try`. -/

/-- Result of a successful `start_client` call. -/
structure ClientStart where
  events : List Ev
  client_process : Bool
deriving DecidableEq

/-- `MainWindow.start_client`, parametrised by whether
`start_client.exe` exists (the only failure mode the claims exercise). -/
def start_client (clientExeOk : Bool) : Except String ClientStart :=
  if clientExeOk then
    Except.ok
      { events :=
          [Ev.spawnClient,
           Ev.startReader "client-stdout", Ev.startReader "client-stderr",
           Ev.emitClient "客户端启动成功，开始加载模型...",
           Ev.setIcon],
        client_process := true }
  else
    Except.error ("FileNotFoundError: " ++ client_exe_path)

/-! ### `MainWindow.append_server_log` and the readiness check

Every line emitted on the server emitter is delivered (via the Qt signal) to
`append_server_log`, which appends it to the server log widget and, whenever
the line contains the sentinel substring, calls `start_client` — with no
`triggered` flag of any kind. -/

/-- The window state touched by server-log delivery. -/
structure WinLogState where
  serverLogW : List String
  clientLogW : List String
  client_process : Bool
deriving DecidableEq

/-- The window state right after `MainWindow.__init__` (before the two
initial client-log hint lines, which are irrelevant here). -/
def winInit : WinLogState := ⟨[], [], false⟩

/-- `MainWindow.append_server_log(message)`: append to the widget, then
`if "------------------------ 开始服务 ----------" in message: self.start_client()`.
An exception raised by `start_client` escapes. -/
def append_server_log (clientExeOk : Bool) (st : WinLogState) (message : String) :
    Except String (WinLogState × List Ev) :=
  let st1 := { st with serverLogW := st.serverLogW ++ [message] }
  if strContains message sentinel then
    match start_client clientExeOk with
    | Except.ok c =>
      Except.ok ({ st1 with client_process := c.client_process },
        Ev.appendServerLog message :: c.events)
    | Except.error e => Except.error e
  else
    Except.ok (st1, [Ev.appendServerLog message])

/-- Deliver a sequence of server-log lines to `append_server_log`, collecting
all events in order. -/
def deliverServerLines (clientExeOk : Bool) (st : WinLogState) :
    List String → Except String (WinLogState × List Ev)
  | [] => Except.ok (st, [])
  | m :: rest =>
    match append_server_log clientExeOk st m with
    | Except.ok (st1, e1) =>
      match deliverServerLines clientExeOk st1 rest with
      | Except.ok (st2, e2) => Except.ok (st2, e1 ++ e2)
      | Except.error e => Except.error e
    | Except.error e => Except.error e

/-- How many times the secondary-startup action fired while delivering
`msgs`, or `none` if an exception escaped delivery. -/
def clientSpawnCount (clientExeOk : Bool) (st : WinLogState) (msgs : List String) :
    Option Nat :=
  match deliverServerLines clientExeOk st msgs with
  | Except.ok r => some (r.2.count Ev.spawnClient)
  | Except.error _ => none

/-! ### `start_core_server` (primary worker startup) -/

/-- The OS answers `start_core_server` consults, as oracles:
`pathExists` is `os.path.exists`; `readableFile` is whether
`open(path, 'rb')` succeeds (its only handled failure is `PermissionError`,
whose message is `permMsg`); `procList` is what `psutil.process_iter`
yields as `(pid, name)` pairs; `procGone pid` means reading that entry's
info raised one of the three swallowed `psutil` exceptions;
`orphanTermErr pid` is the error message if terminating that orphan raised;
`spawnErr` is the error message if `subprocess.Popen` raised;
`serverPid` is the pid of the spawned primary; `cwd` is `os.getcwd()`. -/
structure OSEnv where
  pathExists : String → Bool
  readableFile : String → Bool
  permMsg : String
  procList : List (Nat × String)
  procGone : Nat → Bool
  orphanTermErr : Nat → Option String
  spawnErr : Option String
  serverPid : Nat
  cwd : String

/-- The orphan sweep inside `start_core_server` (lines 432–448): enumerate
processes, collect pids named `start_server.exe` (skipping entries whose
info read raised), then terminate each inside a `try` that logs a warning on
any exception. -/
def sweepOrphans (env : OSEnv) : List Ev :=
  let existing :=
    ((env.procList.filter (fun p => !(env.procGone p.1))).filter
      (fun p => p.2 == "start_server.exe")).map (fun p => p.1)
  if existing.isEmpty then []
  else
    let n := existing.length
    Ev.logInfo s!"发现{n}个已存在的服务器进程" ::
      existing.flatMap (fun pid =>
        match env.orphanTermErr pid with
        | none => [Ev.logInfo s!"已终止服务器进程 (PID: {pid})"]
        | some e => [Ev.logWarning s!"终止进程 {pid} 时出错: {e}"])

/-- The error message reported when the primary executable is missing. -/
def missing_msg : String := s!"错误：服务器可执行文件不存在: {server_exe_path}"

/-- The error message reported when the primary executable is unreadable. -/
def perm_msg (e : String) : String := s!"错误：无法访问服务器可执行文件，权限不足: {e}"

/-- What `start_core_server` did: its events in order, and whether
`window.server_process` was ever assigned a process object. -/
structure StartResult where
  events : List Ev
  serverProcCreated : Bool

/-- `start_core_server(log_emitter, window)` (lines 407–482): log cwd and
path; return early (after reporting) if the executable is missing or
unreadable; sweep orphans; attempt `Popen` inside a `try` that reports and
returns on failure; on success log/emit the pid message, start the two
reader threads, and finally block in `window.server_process.wait()`. -/
def start_core_server (env : OSEnv) : StartResult :=
  let pre :=
    [Ev.logInfo s!"当前工作目录: {env.cwd}",
     Ev.logInfo s!"服务器启动文件路径: {server_exe_path}"]
  if !(env.pathExists server_exe_path) then
    ⟨pre ++ [Ev.logError missing_msg, Ev.emitServer missing_msg], false⟩
  else if !(env.readableFile server_exe_path) then
    let m := perm_msg env.permMsg
    ⟨pre ++ [Ev.logError m, Ev.emitServer m], false⟩
  else
    let pre2 := pre
      ++ [Ev.logInfo "服务器可执行文件权限检查通过"]
      ++ sweepOrphans env
      ++ [Ev.logInfo "准备启动服务器进程...",
          Ev.logInfo s!"启动命令: {server_exe_path}",
          Ev.emitServer "正在启动服务器进程..."]
    match env.spawnErr with
    | some e =>
      let m := s!"启动服务器进程失败: {e}"
      ⟨pre2 ++ [Ev.logError m, Ev.emitServer m], false⟩
    | none =>
      let pid := env.serverPid
      let m := s!"服务器进程已启动，PID: {pid}"
      ⟨pre2 ++ [Ev.spawnServer, Ev.logInfo m, Ev.emitServer m,
                Ev.startReader "stdout", Ev.startReader "stderr",
                Ev.waitServerExit], true⟩

/-! ### `MainWindow.closeEvent` (shutdown, lines 363–405)

Order in the source: stop the liveness timer, then terminate the SERVER
process (terminate, `wait(timeout=5)`, `kill` on `TimeoutExpired`, log on any
other exception), then the CLIENT process the same way, then sweep
`start_server.exe` orphans (swallowing the three `psutil` exceptions), then
accept the close event. -/

/-- Outcome of the `terminate(); wait(timeout=5)` attempt on one process:
it exited within the grace period, it was still alive when the wait timed
out (`subprocess.TimeoutExpired`), or some other exception was raised
(process gone, access denied, ...). -/
inductive TermOutcome
  | exited
  | stillAlive
  | raiseErr (m : String)
deriving DecidableEq

/-- A Python exception as seen by the `except` clauses of `closeEvent`. -/
inductive PyExc
  | timeoutExpired
  | otherExc (m : String)
deriving DecidableEq

/-- Error message logged by the `except Exception` clause for each worker. -/
def termErrMsg : Which → String → String
  | Which.server, m => s!"终止服务端进程时出错：{m}"
  | Which.client, m => s!"终止客户端进程时出错：{m}"

/-- The body of the `try` for one worker: the events it performs and the
exception it raises, if any.  In the `raiseErr` case the exception surfaces
from the terminate/wait pair, so only the terminate request is recorded. -/
def terminateBody (w : Which) (out : TermOutcome) : List Ev × Option PyExc :=
  match out with
  | TermOutcome.exited => ([Ev.terminateProc w, Ev.waitProc w 5], none)
  | TermOutcome.stillAlive =>
    ([Ev.terminateProc w, Ev.waitProc w 5], some PyExc.timeoutExpired)
  | TermOutcome.raiseErr m => ([Ev.terminateProc w], some (PyExc.otherExc m))

/-- One worker's `if self.X_process: try: ... except TimeoutExpired: kill
except Exception: log` block.  Returns its events and the exception that
escapes the block (if any). -/
def termBlock (w : Which) (present : Bool) (out : TermOutcome) :
    List Ev × Option PyExc :=
  if present then
    let body := terminateBody w out
    match body.2 with
    | none => (body.1, none)
    | some PyExc.timeoutExpired => (body.1 ++ [Ev.killProc w], none)
    | some (PyExc.otherExc m) =>
      (body.1 ++ [Ev.logError (termErrMsg w m)], none)
  else ([], none)

/-- The OS answers `closeEvent` consults. -/
structure CloseEnv where
  serverOutcome : TermOutcome
  clientOutcome : TermOutcome
  procList : List (Nat × String)
  procGone : Nat → Bool
  sweepErr : Nat → Bool

/-- The orphan sweep inside `closeEvent` (lines 396–403): terminate every
enumerated process named `start_server.exe` and log it, silently skipping
any entry on which a `psutil` exception was raised. -/
def closeSweep (env : CloseEnv) : List Ev :=
  env.procList.flatMap (fun p =>
    let pid := p.1
    if env.procGone pid then []
    else if p.2 == "start_server.exe" then
      if env.sweepErr pid then []
      else [Ev.sweepTerminate pid,
            Ev.logInfo s!"终止已存在的start_server.exe进程 (PID: {pid})"]
    else [])

/-- Process-handle fields of the window relevant to shutdown:
`server_process`/`client_process` are `True` when the attribute holds a
`Popen` object (the code never resets them to `None`), and
`monitorRunning` is whether the liveness timer is active. -/
structure WinProcState where
  server_process : Bool
  client_process : Bool
  monitorRunning : Bool
deriving DecidableEq

/-- The window's process state right after `MainWindow.__init__` (before
`start_core_server` assigns anything). -/
def freshWin : WinProcState := ⟨false, false, true⟩

/-- What `closeEvent` did. -/
structure CloseResult where
  state : WinProcState
  events : List Ev
  raised : Option PyExc

/-- `MainWindow.closeEvent(event)`: a spontaneous event is ignored and the
window hidden; otherwise stop the monitor, terminate server then client,
sweep orphans, accept.  An exception escaping a block would abort the rest
(the model threads it through `raised`). -/
def closeEvent (st : WinProcState) (env : CloseEnv) (spontaneous : Bool) :
    CloseResult :=
  if spontaneous then ⟨st, [Ev.ignoreEvent, Ev.hideWindow], none⟩
  else
    let st1 := { st with monitorRunning := false }
    let sb := termBlock Which.server st.server_process env.serverOutcome
    match sb.2 with
    | some e => ⟨st1, Ev.stopMonitor :: sb.1, some e⟩
    | none =>
      let cb := termBlock Which.client st.client_process env.clientOutcome
      match cb.2 with
      | some e => ⟨st1, Ev.stopMonitor :: (sb.1 ++ cb.1), some e⟩
      | none =>
        ⟨st1,
         Ev.stopMonitor :: (sb.1 ++ cb.1 ++ closeSweep env ++ [Ev.acceptEvent]),
         none⟩

/-! ### `MainWindow.check_processes` (liveness poll, lines 325–340) -/

/-- A tracked worker as the poll sees it: is the attribute set, and what
does `poll()` return (`none` while running, the exit code once exited). -/
structure ProcSnapshot where
  present : Bool
  poll : Option Int
deriving DecidableEq

/-- The two log widgets `check_processes` appends to. -/
structure MonitorState where
  serverLogW : List String
  clientLogW : List String
deriving DecidableEq

/-- The widget line appended for a crashed server. -/
def serverCrashLine (code : Int) : String :=
  s!"警告：服务端进程异常退出，退出码: {code}"

/-- The widget line appended for a crashed client. -/
def clientCrashLine (code : Int) : String :=
  s!"警告：客户端进程异常退出，退出码: {code}"

/-- One timer tick of `check_processes`: for each tracked process that has
exited, log an error, and append a warning line to its widget when the exit
code is non-zero.  No flag records that the exit was already reported. -/
def check_processes (st : MonitorState) (server client : ProcSnapshot) :
    MonitorState × List Ev :=
  let (st1, evS) :=
    if server.present then
      match server.poll with
      | some code =>
        if code ≠ 0 then
          ({ st with serverLogW := st.serverLogW ++ [serverCrashLine code] },
           [Ev.logError s!"服务端进程异常退出，退出码: {code}",
            Ev.appendServerLog (serverCrashLine code)])
        else (st, [Ev.logError s!"服务端进程异常退出，退出码: {code}"])
      | none => (st, [])
    else (st, [])
  let (st2, evC) :=
    if client.present then
      match client.poll with
      | some code =>
        if code ≠ 0 then
          ({ st1 with clientLogW := st1.clientLogW ++ [clientCrashLine code] },
           [Ev.logError s!"客户端进程异常退出，退出码: {code}",
            Ev.appendClientLog (clientCrashLine code)])
        else (st1, [Ev.logError s!"客户端进程异常退出，退出码: {code}"])
      | none => (st1, [])
    else (st1, [])
  (st2, evS ++ evC)

/-- `n` consecutive timer ticks with the process table unchanged (a crashed
process stays crashed; `QTimer` fires `check_processes` only while the
monitor is running). -/
def runTicks (monitorRunning : Bool) (server client : ProcSnapshot) :
    Nat → MonitorState → MonitorState
  | 0, st => st
  | n + 1, st =>
    if monitorRunning then
      runTicks monitorRunning server client n (check_processes st server client).1
    else st

end TrayGui

namespace TrayGui

/-- A fully healthy environment for `start_core_server`. -/
def envOK : OSEnv :=
  { pathExists := fun _ => true, readableFile := fun _ => true, permMsg := "",
    procList := [], procGone := fun _ => false,
    orphanTermErr := fun _ => none, spawnErr := none,
    serverPid := 4242, cwd := "C:\\app" }

/-- `envOK` with the primary executable missing. -/
def envMissing : OSEnv := { envOK with pathExists := fun _ => false }

/-- A `closeEvent` environment where both terminations complete in grace. -/
def closeEnvOK : CloseEnv :=
  { serverOutcome := TermOutcome.exited, clientOutcome := TermOutcome.exited,
    procList := [], procGone := fun _ => false, sweepErr := fun _ => false }

/-! ### Event classifiers -/

/-- Events that report a fault (warning or error severity). -/
def isFaultEv : Ev → Bool
  | Ev.logError _ => true
  | Ev.logWarning _ => true
  | _ => false

/-- Events that act on one of the two owned worker processes. -/
def isProcControlEv : Ev → Bool
  | Ev.terminateProc _ => true
  | Ev.killProc _ => true
  | _ => false

/-- Events that create a worker process object. -/
def isSpawnEv : Ev → Bool
  | Ev.spawnServer => true
  | Ev.spawnClient => true
  | _ => false

/-! ### Helper lemmas -/

/-- The per-worker termination block never lets an exception escape: its two
`except` clauses cover `TimeoutExpired` and every other exception. -/
lemma termBlock_raised (w : Which) (p : Bool) (out : TermOutcome) :
    (termBlock w p out).2 = none := by
  cases p <;> cases out <;> rfl

/-- When the handle is present, the termination block always begins with the
graceful termination request. -/
lemma termBlock_head (w : Which) (out : TermOutcome) :
    ∃ tail, (termBlock w true out).1 = Ev.terminateProc w :: tail := by
  cases out <;> exact ⟨_, rfl⟩

/-- Every event of `closeEvent`'s orphan sweep is a termination request on an
orphan pid or an informational log line. -/
lemma closeSweep_shape (env : CloseEnv) (e : Ev) (he : e ∈ closeSweep env) :
    isFaultEv e = false ∧ isProcControlEv e = false ∧ isSpawnEv e = false := by
  rw [closeSweep, List.mem_flatMap] at he
  obtain ⟨p, -, hp⟩ := he
  dsimp only at hp
  split at hp
  · simp at hp
  · split at hp
    · split at hp
      · simp at hp
      · simp only [List.mem_cons, List.mem_singleton, List.not_mem_nil, or_false] at hp
        rcases hp with h | h <;> subst h <;> exact ⟨rfl, rfl, rfl⟩
    · simp at hp

/-- Every event of `start_core_server`'s orphan sweep is an informational or
warning log line. -/
lemma sweepOrphans_shape (env : OSEnv) (e : Ev) (he : e ∈ sweepOrphans env) :
    (∃ m, e = Ev.logInfo m) ∨ (∃ m, e = Ev.logWarning m) := by
  rw [sweepOrphans] at he
  split at he
  · simp at he
  · rw [List.mem_cons] at he
    rcases he with h | h
    · exact Or.inl ⟨_, h⟩
    · rw [List.mem_flatMap] at h
      obtain ⟨pid, -, hp⟩ := h
      split at hp
      · rw [List.mem_singleton] at hp
        exact Or.inl ⟨_, hp⟩
      · rw [List.mem_singleton] at hp
        exact Or.inr ⟨_, hp⟩

/-- `closeEvent` never lets an exception escape to its caller. -/
lemma closeEvent_no_raise (st : WinProcState) (env : CloseEnv) (sp : Bool) :
    (closeEvent st env sp).raised = none := by
  cases sp
  · simp [closeEvent, termBlock_raised]
  · rfl

/-- A non-spontaneous `closeEvent` always runs the whole shutdown sequence:
its last action is accepting the close event. -/
lemma closeEvent_accept (st : WinProcState) (env : CloseEnv) :
    (closeEvent st env false).events.getLast? = some Ev.acceptEvent := by
  have h : (closeEvent st env false).events
      = ([Ev.stopMonitor]
          ++ ((termBlock Which.server st.server_process env.serverOutcome).1
            ++ (termBlock Which.client st.client_process env.clientOutcome).1
            ++ closeSweep env)) ++ [Ev.acceptEvent] := by
    simp [closeEvent, termBlock_raised]
  rw [h, List.getLast?_concat]

/-- With the secondary executable in place, delivering server-log lines
never fails, and the secondary spawn fires once per sentinel-containing
line. -/
lemma deliver_spawn_count (msgs : List String) :
    ∀ st : WinLogState, ∃ r : WinLogState × List Ev,
      deliverServerLines true st msgs = Except.ok r
      ∧ r.2.count Ev.spawnClient
          = msgs.countP (fun m => strContains m sentinel) := by
  induction msgs with
  | nil => exact fun st => ⟨(st, []), rfl, rfl⟩
  | cons m rest ih =>
    intro st
    by_cases hm : strContains m sentinel
    · obtain ⟨r, hr, hcount⟩ :=
        ih { st with serverLogW := st.serverLogW ++ [m], client_process := true }
      refine ⟨(r.1, (Ev.appendServerLog m ::
        [Ev.spawnClient,
         Ev.startReader "client-stdout", Ev.startReader "client-stderr",
         Ev.emitClient "客户端启动成功，开始加载模型...",
         Ev.setIcon]) ++ r.2), ?_, ?_⟩
      · simp [deliverServerLines, append_server_log, hm, start_client, hr]
      · simp [List.count_append, List.count_cons, hcount, List.countP_cons, hm]
    · obtain ⟨r, hr, hcount⟩ :=
        ih { st with serverLogW := st.serverLogW ++ [m] }
      refine ⟨(r.1, [Ev.appendServerLog m] ++ r.2), ?_, ?_⟩
      · simp [deliverServerLines, append_server_log, hm, hr]
      · simp [List.count_append, List.count_cons, hcount, List.countP_cons, hm]

/-! ### Claim C1 — readiness gate fires exactly once -/

/-- **C1, counterexample.**  The claim says the secondary-startup action is
executed exactly once per line sequence and that later sentinel lines hit a
terminal TRIGGERED state.  `append_server_log` has no triggered flag:
delivering the sentinel line twice spawns the client twice. -/
theorem C1_counterexample :
    clientSpawnCount true winInit [sentinel, sentinel] = some 2
    ∧ ((some 2 : Option Nat) == some 1) = false := by decide

/-- **C1, amended.**  The secondary-startup action fires once per delivered
line containing the sentinel substring (so `n` matching lines spawn the
secondary `n` times); there is no terminal TRIGGERED state. -/
theorem C1_spawn_once_per_sentinel_line (st : WinLogState) (msgs : List String) :
    clientSpawnCount true st msgs
      = some (msgs.countP (fun m => strContains m sentinel)) := by
  obtain ⟨r, hr, hcount⟩ := deliver_spawn_count msgs st
  rw [clientSpawnCount, hr]
  simp [hcount]

/-! ### Claim C2 — `start()` is non-blocking -/

/-- **C2, counterexample.**  The claim says that after spawning the primary
and its readers, startup returns without waiting for the primary to exit.
In a fully healthy environment `start_core_server` both spawns the primary
and performs the blocking wait-for-exit before returning. -/
theorem C2_counterexample :
    Ev.spawnServer ∈ (start_core_server envOK).events
    ∧ Ev.waitServerExit ∈ (start_core_server envOK).events := by decide

/-- **C2, amended.**  Whenever `start_core_server` spawns the primary, its
very last action before returning is the blocking `wait()` on the primary
process: startup only returns after the primary exits. -/
theorem C2_start_waits_for_primary (env : OSEnv)
    (h : Ev.spawnServer ∈ (start_core_server env).events) :
    (start_core_server env).events.getLast? = some Ev.waitServerExit := by
  cases h1 : env.pathExists server_exe_path with
  | false => simp [start_core_server, h1] at h
  | true =>
    cases h2 : env.readableFile server_exe_path with
    | false => simp [start_core_server, h1, h2] at h
    | true =>
      cases hsp : env.spawnErr with
      | some e =>
        simp [start_core_server, h1, h2, hsp] at h
        rcases sweepOrphans_shape env _ h with ⟨m, hm⟩ | ⟨m, hm⟩ <;> simp at hm
      | none =>
        have hev : (start_core_server env).events
            = ([Ev.logInfo s!"当前工作目录: {env.cwd}",
                Ev.logInfo s!"服务器启动文件路径: {server_exe_path}",
                Ev.logInfo "服务器可执行文件权限检查通过"]
               ++ sweepOrphans env
               ++ [Ev.logInfo "准备启动服务器进程...",
                   Ev.logInfo s!"启动命令: {server_exe_path}",
                   Ev.emitServer "正在启动服务器进程...",
                   Ev.spawnServer,
                   Ev.logInfo s!"服务器进程已启动，PID: {env.serverPid}",
                   Ev.emitServer s!"服务器进程已启动，PID: {env.serverPid}",
                   Ev.startReader "stdout", Ev.startReader "stderr"])
              ++ [Ev.waitServerExit] := by
          simp [start_core_server, h1, h2, hsp]
        rw [hev, List.getLast?_concat]

/-- **C2, witness.** -/
theorem C2_witness :
    Ev.spawnServer ∈ (start_core_server envOK).events
    ∧ (start_core_server envOK).events.getLast? = some Ev.waitServerExit :=
  ⟨by decide, C2_start_waits_for_primary envOK (by decide)⟩

/-! ### Claim C3 — shutdown terminates the secondary before the primary -/

/-- **C3, counterexample.**  The claim says shutdown terminates the
secondary (client) before the primary (server).  With both processes
tracked, the first termination request in `closeEvent`'s trace is the
server's (index 1), and the client's comes later (index 3): the order is the
same as startup, not its reverse. -/
theorem C3_counterexample :
    ((closeEvent ⟨true, true, true⟩ closeEnvOK false).events.findIdx?
        (fun e => e == Ev.terminateProc Which.server)) = some 1
    ∧ ((closeEvent ⟨true, true, true⟩ closeEnvOK false).events.findIdx?
        (fun e => e == Ev.terminateProc Which.client)) = some 3
    ∧ Nat.blt 3 1 = false := by decide

/-- **C3, amended.**  During shutdown the primary (server) worker is
terminated before the secondary (client) worker — the same order as
startup — each still with the bounded 5-second grace period before
escalation to kill. -/
theorem C3_primary_terminated_first (st : WinProcState) (env : CloseEnv)
    (hs : st.server_process = true) (hc : st.client_process = true) :
    ∃ l₁ l₂ l₃, (closeEvent st env false).events
      = l₁ ++ Ev.terminateProc Which.server ::
          (l₂ ++ Ev.terminateProc Which.client :: l₃) := by
  obtain ⟨ts, hts⟩ := termBlock_head Which.server env.serverOutcome
  obtain ⟨tc, htc⟩ := termBlock_head Which.client env.clientOutcome
  refine ⟨[Ev.stopMonitor], ts, tc ++ closeSweep env ++ [Ev.acceptEvent], ?_⟩
  simp [closeEvent, termBlock_raised, hs, hc, hts, htc]

/-- **C3, witness.** -/
theorem C3_witness :
    (⟨true, true, true⟩ : WinProcState).server_process = true
    ∧ (⟨true, true, true⟩ : WinProcState).client_process = true
    ∧ ∃ l₁ l₂ l₃, (closeEvent ⟨true, true, true⟩ closeEnvOK false).events
        = l₁ ++ Ev.terminateProc Which.server ::
            (l₂ ++ Ev.terminateProc Which.client :: l₃) :=
  ⟨rfl, rfl, C3_primary_terminated_first ⟨true, true, true⟩ closeEnvOK rfl rfl⟩

/-! ### Claim C4 — read errors are absorbed as end-of-stream -/

/-- **C4, counterexample.**  The claim says a mid-stream read error is never
raised out of the reader, is logged, and the reader closes its handle and
returns normally.  On a stream that yields one line and then a read error,
`read_output` lets the error escape, performs no fault logging (its only
events are the line's info log and emit), and never closes the handle. -/
theorem C4_counterexample :
    (read_output [ReadResult.line "a\n", ReadResult.readErr "oserror"]).raised
      = some "oserror"
    ∧ (read_output [ReadResult.line "a\n", ReadResult.readErr "oserror"]).closed
      = false
    ∧ (read_output [ReadResult.line "a\n", ReadResult.readErr "oserror"]).events
      = [Ev.logInfo "[Core Server] a", Ev.emitServer "a"] := by decide

/-- **C4, amended.**  A read error mid-stream escapes both stream readers
uncaught (it propagates to the reader thread's execution context): after any
prefix of ordinary lines, the error surfaces in `raised` and the stream
handle is never closed. -/
theorem C4_read_error_escapes (pre : List String) (m : String)
    (rest : List ReadResult) (h : ∀ s ∈ pre, s ≠ "") :
    ((read_output (pre.map ReadResult.line ++ ReadResult.readErr m :: rest)).raised
        = some m
     ∧ (read_output (pre.map ReadResult.line ++ ReadResult.readErr m :: rest)).closed
        = false)
    ∧ ((read_client_output
          (pre.map ReadResult.line ++ ReadResult.readErr m :: rest)).raised
        = some m
     ∧ (read_client_output
          (pre.map ReadResult.line ++ ReadResult.readErr m :: rest)).closed
        = false) := by
  induction pre with
  | nil => exact ⟨⟨rfl, rfl⟩, rfl, rfl⟩
  | cons a t ih =>
    have ha : a ≠ "" := h a (by simp)
    have ht := ih (fun s hs => h s (by simp [hs]))
    simpa [read_output, read_client_output, ha] using ht

/-- **C4, witness.** -/
theorem C4_witness :
    (∀ s ∈ ["a\n"], s ≠ "")
    ∧ (((read_output (["a\n"].map ReadResult.line
          ++ ReadResult.readErr "boom" :: [])).raised = some "boom"
       ∧ (read_output (["a\n"].map ReadResult.line
          ++ ReadResult.readErr "boom" :: [])).closed = false)
      ∧ ((read_client_output (["a\n"].map ReadResult.line
          ++ ReadResult.readErr "boom" :: [])).raised = some "boom"
       ∧ (read_client_output (["a\n"].map ReadResult.line
          ++ ReadResult.readErr "boom" :: [])).closed = false)) :=
  ⟨by decide, C4_read_error_escapes ["a\n"] "boom" [] (by decide)⟩

/-! ### Claim C5 — delivery trims only trailing whitespace -/

/-- **C5, counterexample.**  The claim says each delivered line equals the
produced line with only its trailing whitespace removed, leading whitespace
unchanged.  For the produced line `"  hello \n"`, the subscriber receives
`"hello"` (the readers call Python's `strip()`, which also removes leading
whitespace), while trailing-only trimming would give `"  hello"`. -/
theorem C5_counterexample :
    serverEmits (read_output [ReadResult.line "  hello \n"]).events = ["hello"]
    ∧ specRStrip "  hello \n" = "  hello"
    ∧ (("hello" : String) == "  hello") = false := by decide

/-- **C5, amended.**  For every sequence of (non-empty) lines produced on a
worker stream, the subscriber receives exactly those lines, in order,
exactly once each — but each delivered line is the produced line with BOTH
leading and trailing whitespace removed (Python `strip()`). -/
theorem C5_lines_delivered_stripped (lines : List String)
    (h : ∀ s ∈ lines, s ≠ "") :
    serverEmits (read_output (lines.map ReadResult.line)).events
      = lines.map pyStrip
    ∧ clientEmits (read_client_output (lines.map ReadResult.line)).events
      = lines.map pyStrip := by
  induction lines with
  | nil => exact ⟨rfl, rfl⟩
  | cons a t ih =>
    have ha : a ≠ "" := h a (by simp)
    obtain ⟨ih1, ih2⟩ := ih (fun s hs => h s (by simp [hs]))
    constructor
    · simp [read_output, ha, serverEmits, ih1]
    · simp [read_client_output, ha, clientEmits, ih2]

/-- **C5, witness.** -/
theorem C5_witness :
    (∀ s ∈ ["  a \n", "b\n"], s ≠ "")
    ∧ (serverEmits (read_output (["  a \n", "b\n"].map ReadResult.line)).events
        = ["  a \n", "b\n"].map pyStrip
      ∧ clientEmits
          (read_client_output (["  a \n", "b\n"].map ReadResult.line)).events
        = ["  a \n", "b\n"].map pyStrip) :=
  ⟨by decide, C5_lines_delivered_stripped ["  a \n", "b\n"] (by decide)⟩

/-! ### Claim C6 — missing/unreadable primary executable aborts startup -/

/-- **C6.**  If the primary executable does not exist — or exists but is
unreadable — `start_core_server` reports the startup failure to both the
logger and the log emitter and returns with no process object created for
either worker (no spawn event at all, and `window.server_process` is never
assigned). -/
theorem C6_missing_primary_aborts (env : OSEnv) :
    (env.pathExists server_exe_path = false →
      (start_core_server env).serverProcCreated = false
      ∧ Ev.logError missing_msg ∈ (start_core_server env).events
      ∧ Ev.emitServer missing_msg ∈ (start_core_server env).events
      ∧ (start_core_server env).events.countP isSpawnEv = 0)
    ∧ (env.pathExists server_exe_path = true →
       env.readableFile server_exe_path = false →
      (start_core_server env).serverProcCreated = false
      ∧ Ev.logError (perm_msg env.permMsg) ∈ (start_core_server env).events
      ∧ Ev.emitServer (perm_msg env.permMsg) ∈ (start_core_server env).events
      ∧ (start_core_server env).events.countP isSpawnEv = 0) := by
  constructor
  · intro h1
    simp [start_core_server, h1, List.countP_cons, List.countP_append, isSpawnEv]
  · intro h1 h2
    simp [start_core_server, h1, h2, List.countP_cons, List.countP_append,
      isSpawnEv]

/-- **C6, witness.** -/
theorem C6_witness :
    envMissing.pathExists server_exe_path = false
    ∧ ((start_core_server envMissing).serverProcCreated = false
      ∧ Ev.logError missing_msg ∈ (start_core_server envMissing).events
      ∧ Ev.emitServer missing_msg ∈ (start_core_server envMissing).events
      ∧ (start_core_server envMissing).events.countP isSpawnEv = 0) :=
  ⟨by decide, (C6_missing_primary_aborts envMissing).1 (by decide)⟩

/-! ### Claim C7 — `stop()` is idempotent and safe out of order -/

/-- The orphan sweep of `closeEvent` reports no fault. -/
lemma closeSweep_no_fault (env : CloseEnv) :
    (closeSweep env).countP isFaultEv = 0 :=
  List.countP_eq_zero.mpr fun e he => by simp [(closeSweep_shape env e he).1]

/-- The orphan sweep of `closeEvent` touches no owned worker process. -/
lemma closeSweep_no_control (env : CloseEnv) :
    (closeSweep env).countP isProcControlEv = 0 :=
  List.countP_eq_zero.mpr fun e he => by simp [(closeSweep_shape env e he).2.1]

/-- **C7.**  `closeEvent` (the `stop()` operation) is safe out of order:
called on a window that never started a worker it performs no
terminate/kill on an owned process and reports no fault (warning or error),
and however it is called, no exception ever escapes to the caller — in
particular a second `closeEvent`, which re-runs terminate on the
already-terminated (still-assigned) process objects, absorbs every
termination exception. -/
theorem C7_stop_idempotent :
    (∀ env : CloseEnv,
      (closeEvent freshWin env false).raised = none
      ∧ (closeEvent freshWin env false).events.countP isFaultEv = 0
      ∧ (closeEvent freshWin env false).events.countP isProcControlEv = 0)
    ∧ (∀ (st : WinProcState) (env1 env2 : CloseEnv),
      (closeEvent (closeEvent st env1 false).state env2 false).raised = none) := by
  constructor
  · intro env
    have hev : (closeEvent freshWin env false).events
        = Ev.stopMonitor :: (closeSweep env ++ [Ev.acceptEvent]) := by
      simp [closeEvent, freshWin, termBlock]
    refine ⟨closeEvent_no_raise _ _ _, ?_, ?_⟩
    · rw [hev]
      simp [List.countP_cons, List.countP_append, isFaultEv,
        closeSweep_no_fault]
    · rw [hev]
      simp [List.countP_cons, List.countP_append, isProcControlEv,
        closeSweep_no_control]
  · exact fun st env1 env2 => closeEvent_no_raise _ _ _

/-! ### Claim C8 — terminate with grace period, faults logged, shutdown
continues -/

/-- **C8.**  For a present worker handle, the termination block first sends
the graceful termination request; the forced kill happens exactly when the
process was still alive after the 5-second grace wait; any other
termination error is converted into a logged error message; no exception
escapes the block, and a non-spontaneous `closeEvent` always runs to its
final accept action regardless of such faults. -/
theorem C8_terminate_grace (w : Which) (out : TermOutcome) :
    ((termBlock w true out).1.head? = some (Ev.terminateProc w))
    ∧ ((Ev.killProc w ∈ (termBlock w true out).1)
        ↔ out = TermOutcome.stillAlive)
    ∧ (out = TermOutcome.stillAlive →
        (termBlock w true out).1
          = [Ev.terminateProc w, Ev.waitProc w 5, Ev.killProc w])
    ∧ (∀ m, out = TermOutcome.raiseErr m →
        (termBlock w true out).1
          = [Ev.terminateProc w, Ev.logError (termErrMsg w m)])
    ∧ (∀ (st : WinProcState) (env : CloseEnv),
        (closeEvent st env false).raised = none
        ∧ (closeEvent st env false).events.getLast? = some Ev.acceptEvent) := by
  refine ⟨?_, ?_, ?_, ?_,
    fun st env => ⟨closeEvent_no_raise _ _ _, closeEvent_accept _ _⟩⟩ <;>
    cases out <;> simp [termBlock, terminateBody]

/-- **C8, witness.** -/
theorem C8_witness :
    (termBlock Which.server true TermOutcome.stillAlive).1
      = [Ev.terminateProc Which.server, Ev.waitProc Which.server 5,
         Ev.killProc Which.server]
    ∧ (termBlock Which.client true (TermOutcome.raiseErr "AccessDenied")).1
      = [Ev.terminateProc Which.client,
         Ev.logError (termErrMsg Which.client "AccessDenied")] :=
  ⟨(C8_terminate_grace Which.server TermOutcome.stillAlive).2.2.1 rfl,
   (C8_terminate_grace Which.client (TermOutcome.raiseErr "AccessDenied")).2.2.2.1
     "AccessDenied" rfl⟩

/-! ### Claim C9 — the secondary spawn path is unguarded -/

/-- **C9.**  `start_client` performs no existence check and wraps the spawn
in no handler: with the secondary executable missing, the spawn exception
propagates out of `start_client` (no report of any kind is produced) —
unlike the primary path, where a missing executable makes
`start_core_server` return normally with the failure reported to the logger
and emitter. -/
theorem C9_secondary_spawn_unguarded :
    (start_client false
        = Except.error ("FileNotFoundError: " ++ client_exe_path))
    ∧ (∀ env : OSEnv, env.pathExists server_exe_path = false →
        (start_core_server env).serverProcCreated = false
        ∧ Ev.logError missing_msg ∈ (start_core_server env).events
        ∧ Ev.emitServer missing_msg ∈ (start_core_server env).events) := by
  refine ⟨rfl, fun env h1 => ?_⟩
  simp [start_core_server, h1]

/-- **C9, witness.** -/
theorem C9_witness :
    envMissing.pathExists server_exe_path = false
    ∧ ((start_core_server envMissing).serverProcCreated = false
      ∧ Ev.logError missing_msg ∈ (start_core_server envMissing).events
      ∧ Ev.emitServer missing_msg ∈ (start_core_server envMissing).events) :=
  ⟨by decide, C9_secondary_spawn_unguarded.2 envMissing (by decide)⟩

/-! ### Claim C10 — liveness poll re-reports a crash every tick -/

/-- One poll tick on a crashed (non-zero exit) server appends exactly one
fresh warning line to the server log widget, whatever the client is doing. -/
lemma check_server_crashed (st : MonitorState) (client : ProcSnapshot)
    (c : Int) (hc : c ≠ 0) :
    ((check_processes st ⟨true, some c⟩ client).1).serverLogW
      = st.serverLogW ++ [serverCrashLine c] := by
  obtain ⟨cp, cpoll⟩ := client
  cases cp <;> rcases cpoll with _ | code <;>
    simp [check_processes, hc] <;> split <;> simp

/-- One poll tick on a crashed (non-zero exit) client appends exactly one
fresh warning line to the client log widget, whatever the server is doing. -/
lemma check_client_crashed (st : MonitorState) (server : ProcSnapshot)
    (c : Int) (hc : c ≠ 0) :
    ((check_processes st server ⟨true, some c⟩).1).clientLogW
      = st.clientLogW ++ [clientCrashLine c] := by
  obtain ⟨sp, spoll⟩ := server
  cases sp <;> rcases spoll with _ | code <;>
    simp [check_processes, hc] <;> split <;> simp

/-- **C10.**  The liveness poll does not deduplicate exit reports: while the
monitor runs, every tick at which a tracked worker has already exited with a
non-zero code appends a fresh warning line to that worker's log — after `n`
ticks the crash has been reported `n` times, not once. -/
theorem C10_crash_rereported_each_tick (n : Nat) (st : MonitorState)
    (other : ProcSnapshot) (c : Int) (hc : c ≠ 0) :
    (runTicks true ⟨true, some c⟩ other n st).serverLogW
      = st.serverLogW ++ List.replicate n (serverCrashLine c)
    ∧ (runTicks true other ⟨true, some c⟩ n st).clientLogW
      = st.clientLogW ++ List.replicate n (clientCrashLine c) := by
  induction n generalizing st with
  | zero => simp [runTicks]
  | succ k ih =>
    constructor
    · rw [runTicks]
      simp only [if_true]
      rw [(ih ((check_processes st ⟨true, some c⟩ other).1)).1,
        check_server_crashed st other c hc]
      simp [List.replicate_succ]
    · rw [runTicks]
      simp only [if_true]
      rw [(ih ((check_processes st other ⟨true, some c⟩).1)).2,
        check_client_crashed st other c hc]
      simp [List.replicate_succ]

/-- **C10, witness.** -/
theorem C10_witness :
    ((1 : Int) ≠ 0)
    ∧ ((runTicks true ⟨true, some 1⟩ ⟨false, none⟩ 3 ⟨[], []⟩).serverLogW
        = ([] : List String) ++ List.replicate 3 (serverCrashLine 1)
      ∧ (runTicks true ⟨false, none⟩ ⟨true, some 1⟩ 3 ⟨[], []⟩).clientLogW
        = ([] : List String) ++ List.replicate 3 (clientCrashLine 1)) :=
  ⟨by decide,
   C10_crash_rereported_each_tick 3 ⟨[], []⟩ ⟨false, none⟩ 1 (by decide)⟩

end TrayGui
